import Mathlib

/-!
Shallow embedding of the control-synchronization / staleness-detection /
history-persistence engine of
`src/superset-frontend/src/explore/components/ExploreViewContainer/index.jsx`,
together with theorems settling the frozen claims about it.

JavaScript values are modelled by the inductive `Val`; control snapshots by
association lists keyed by control name (mirroring `Object.keys` iteration and
property lookup). External library helpers that are not part of the provided
sources (`areObjectsEqual` from `src/reduxUtils`, lodash `debounce`/`isEqual`,
the React effect lifecycle, the URL-parameter constants from `src/constants`)
are modelled from the specification; each such definition is marked
`Modelled from the spec:` in its doc comment.
-/

/-- A JavaScript value, as far as this subsystem can observe it: control values
are opaque and only ever compared by deep equality. `vUndefined` and `vNull`
are distinct values, both distinct from an absent object key. -/
inductive Val where
  | vNull : Val
  | vUndefined : Val
  | vBool : Bool → Val
  | vNum : Int → Val
  | vStr : String → Val
  | vArr : List Val → Val
  | vObj : List (String × Val) → Val

mutual

/-- Modelled from the spec: lodash `isEqual` (external library, not in the
provided sources) — deep structural equality of two values; `undefined` and
`null` are distinct from each other and from every other value. -/
def Val.beq : Val → Val → Bool
  | .vNull, .vNull => true
  | .vUndefined, .vUndefined => true
  | .vBool a, .vBool b => a == b
  | .vNum a, .vNum b => a == b
  | .vStr a, .vStr b => a == b
  | .vArr xs, .vArr ys => Val.beqList xs ys
  | .vObj fs1, .vObj fs2 => Val.beqFields fs1 fs2
  | _, _ => false

/-- Element-wise deep equality of two arrays. -/
def Val.beqList : List Val → List Val → Bool
  | [], [] => true
  | x :: xs, y :: ys => Val.beq x y && Val.beqList xs ys
  | _, _ => false

/-- Field-wise deep equality of two objects. -/
def Val.beqFields : List (String × Val) → List (String × Val) → Bool
  | [], [] => true
  | (k1, v1) :: fs1, (k2, v2) :: fs2 =>
      k1 == k2 && Val.beq v1 v2 && Val.beqFields fs1 fs2
  | _, _ => false

end

/-- lodash `isEqual`, as used at index.jsx line 495. -/
def isEqual (value1 value2 : Val) : Bool :=
  Val.beq value1 value2

/-- lodash `isObjectLike`: true for arrays and plain objects, false for
`null`, `undefined` and primitives. -/
def isObjectLike : Val → Bool
  | .vArr _ => true
  | .vObj _ => true
  | _ => false

/-- Drop the object fields whose names appear in `ignore` (top level only);
non-objects are returned unchanged. -/
def omitFields (ignore : List String) : Val → Val
  | .vObj fields => .vObj (fields.filter (fun f => !ignore.contains f.1))
  | v => v

/-- Modelled from the spec: `areObjectsEqual` from `src/reduxUtils` (not in the
provided sources) — "deep equality with one exception field ignored by name":
deep structural equality after omitting the `ignoreFields` keys from the top
level of each compared value. With an empty `ignoreFields` list it is plain
deep equality. -/
def areObjectsEqual (value1 value2 : Val) (ignoreFields : List String) : Bool :=
  Val.beq (omitFields ignoreFields value1) (omitFields ignoreFields value2)

/-- A control record, as consumed by this subsystem: the current `value`, the
validation errors attached by the owning widget, and the two behaviour flags
read by the classifier and the staleness detector. -/
structure Control where
  value : Val
  validationErrors : List String
  renderTrigger : Bool
  dontRefreshOnChange : Bool

/-- A control snapshot: an ordered mapping from control name to control record,
mirroring a JavaScript object (`Object.keys` iterates the key list, `obj[key]`
is `List.lookup`). -/
abbrev Snapshot := List (String × Control)

/-- The per-control value comparison inside `chartIsStale`
(index.jsx lines 488-495): when both values are object-like, deep equality
ignoring the `datasourceWarning` annotation field; otherwise lodash
`isEqual`. -/
def staleValueDiffers (value1 value2 : Val) : Bool :=
  if isObjectLike value1 && isObjectLike value2 then
    !(areObjectsEqual value1 value2 ["datasourceWarning"])
  else
    !(isEqual value1 value2)

/-- `chartIsStale` (index.jsx lines 480-505): if a last-queried snapshot
exists, collect the current control names whose last-queried record exists and
whose value differs (`staleValueDiffers`), and return true iff one of them has
neither `renderTrigger` nor `dontRefreshOnChange` set in the current
snapshot. -/
def chartIsStale (lastQueriedControls : Option Snapshot) (controls : Snapshot) : Bool :=
  match lastQueriedControls with
  | some lastQueried =>
    let changedControlKeys := (controls.map Prod.fst).filter fun key =>
      match lastQueried.lookup key with
      | none => false
      | some lastControl =>
        match controls.lookup key with
        | none => false
        | some control => staleValueDiffers control.value lastControl.value
    changedControlKeys.any fun key =>
      match controls.lookup key with
      | some control => !control.renderTrigger && !control.dontRefreshOnChange
      | none => false
  | none => false

/-- `changedControlKeys` from the controls-change effect
(index.jsx lines 461-468): current control names whose previous record is
defined and whose value differs under `areObjectsEqual` with default
options. -/
def changedControlKeys (previousControls controls : Snapshot) : List String :=
  (controls.map Prod.fst).filter fun key =>
    match previousControls.lookup key with
    | none => false
    | some previousControl =>
      match controls.lookup key with
      | none => false
      | some control => !(areObjectsEqual control.value previousControl.value [])

/-- `displayControlsChanged` (index.jsx lines 471-473): the changed control
names whose current record has `renderTrigger` set. -/
def displayControlsChanged (previousControls controls : Snapshot) : List String :=
  (changedControlKeys previousControls controls).filter fun key =>
    match controls.lookup key with
    | some control => control.renderTrigger
    | none => false

lemma lookup_isSome_iff_mem_keys (l : Snapshot) (key : String) :
    (l.lookup key).isSome = true ↔ key ∈ l.map Prod.fst := by
  induction l with
  | nil => simp [List.lookup]
  | cons hd tl ih =>
    obtain ⟨k, c⟩ := hd
    by_cases h : key = k
    · subst h
      simp [List.lookup]
    · have hbeq : (key == k) = false := by simpa using h
      simp [List.lookup, hbeq, ih, h]

lemma staleValueDiffers_eq_not_areObjectsEqual (value1 value2 : Val) :
    staleValueDiffers value1 value2
      = !(areObjectsEqual value1 value2 ["datasourceWarning"]) := by
  unfold staleValueDiffers
  by_cases h : (isObjectLike value1 && isObjectLike value2) = true
  · simp [h]
  · have heq : isEqual value1 value2
        = areObjectsEqual value1 value2 ["datasourceWarning"] := by
      cases value1 <;> cases value2 <;>
        simp_all [isEqual, areObjectsEqual, omitFields, isObjectLike, Val.beq]
    simp [h, heq]

lemma stale_changed_pred_iff (lastQueried controls : Snapshot) (key : String) :
    ((match lastQueried.lookup key with
      | none => false
      | some lastControl =>
        match controls.lookup key with
        | none => false
        | some control => staleValueDiffers control.value lastControl.value) = true)
      ↔ ∃ control lastControl,
          controls.lookup key = some control ∧
          lastQueried.lookup key = some lastControl ∧
          staleValueDiffers control.value lastControl.value = true := by
  rcases hl : lastQueried.lookup key with _ | lastControl <;>
    rcases hc : controls.lookup key with _ | control <;> simp [hl, hc]

lemma stale_nonIgnorable_pred_iff (controls : Snapshot) (key : String) :
    ((match controls.lookup key with
      | some control => !control.renderTrigger && !control.dontRefreshOnChange
      | none => false) = true)
      ↔ ∃ control,
          controls.lookup key = some control ∧
          control.renderTrigger = false ∧ control.dontRefreshOnChange = false := by
  rcases hc : controls.lookup key with _ | control <;> simp [hc]

/-- C1. Staleness detection: `chartIsStale` returns true iff some control name
present in both the last-queried and the current snapshot has a value that
differs under deep equality with the `datasourceWarning` annotation field
ignored, and the current record has neither `renderTrigger` nor
`dontRefreshOnChange` set; in particular it returns false when no value
differs. -/
theorem chartIsStale_iff_nonIgnorable_differs (lastQueried controls : Snapshot) :
    chartIsStale (some lastQueried) controls = true ↔
      ∃ key control lastControl,
        controls.lookup key = some control ∧
        lastQueried.lookup key = some lastControl ∧
        areObjectsEqual control.value lastControl.value ["datasourceWarning"] = false ∧
        control.renderTrigger = false ∧
        control.dontRefreshOnChange = false := by
  unfold chartIsStale
  simp only [List.any_eq_true, List.mem_filter]
  constructor
  · rintro ⟨key, ⟨-, hchanged⟩, hstale⟩
    obtain ⟨control, lastControl, hc, hl, hdiff⟩ :=
      (stale_changed_pred_iff lastQueried controls key).mp hchanged
    obtain ⟨control', hc', hrt, hdr⟩ :=
      (stale_nonIgnorable_pred_iff controls key).mp hstale
    rw [hc] at hc'
    injection hc' with hcc
    subst hcc
    rw [staleValueDiffers_eq_not_areObjectsEqual] at hdiff
    exact ⟨key, control, lastControl, hc, hl, by simpa using hdiff, hrt, hdr⟩
  · rintro ⟨key, control, lastControl, hc, hl, hdiff, hrt, hdr⟩
    refine ⟨key, ⟨(lookup_isSome_iff_mem_keys controls key).mp (by simp [hc]), ?_⟩, ?_⟩
    · refine (stale_changed_pred_iff lastQueried controls key).mpr
        ⟨control, lastControl, hc, hl, ?_⟩
      rw [staleValueDiffers_eq_not_areObjectsEqual, hdiff]
      rfl
    · exact (stale_nonIgnorable_pred_iff controls key).mpr ⟨control, hc, hrt, hdr⟩

lemma changed_pred_iff (previousControls controls : Snapshot) (key : String) :
    ((match previousControls.lookup key with
      | none => false
      | some previousControl =>
        match controls.lookup key with
        | none => false
        | some control => !(areObjectsEqual control.value previousControl.value [])) = true)
      ↔ ∃ control previousControl,
          controls.lookup key = some control ∧
          previousControls.lookup key = some previousControl ∧
          areObjectsEqual control.value previousControl.value [] = false := by
  rcases hp : previousControls.lookup key with _ | previousControl <;>
    rcases hc : controls.lookup key with _ | control <;> simp [hp, hc]

lemma renderTrigger_pred_iff (controls : Snapshot) (key : String) :
    ((match controls.lookup key with
      | some control => control.renderTrigger
      | none => false) = true)
      ↔ ∃ control, controls.lookup key = some control ∧ control.renderTrigger = true := by
  rcases hc : controls.lookup key with _ | control <;> simp [hc]

/-- C2. Change classification: a control name is changed iff it has a record
in both snapshots and the values differ under deep equality; a changed name is
in the visual-only (`displayControlsChanged`) set iff its current record has
`renderTrigger` set. -/
theorem changedControlKeys_classification (previousControls controls : Snapshot)
    (key : String) :
    (key ∈ changedControlKeys previousControls controls ↔
      ∃ control previousControl,
        controls.lookup key = some control ∧
        previousControls.lookup key = some previousControl ∧
        areObjectsEqual control.value previousControl.value [] = false)
    ∧ (key ∈ displayControlsChanged previousControls controls ↔
      key ∈ changedControlKeys previousControls controls ∧
        ∃ control, controls.lookup key = some control ∧ control.renderTrigger = true) := by
  constructor
  · unfold changedControlKeys
    simp only [List.mem_filter]
    constructor
    · rintro ⟨-, hchanged⟩
      exact (changed_pred_iff previousControls controls key).mp hchanged
    · rintro h
      obtain ⟨control, previousControl, hc, hp, hdiff⟩ := h
      refine ⟨(lookup_isSome_iff_mem_keys controls key).mp (by simp [hc]), ?_⟩
      exact (changed_pred_iff previousControls controls key).mpr
        ⟨control, previousControl, hc, hp, hdiff⟩
  · unfold displayControlsChanged
    simp only [List.mem_filter]
    rw [renderTrigger_pred_iff]

/-- The flat form-data projection passed to `updateHistory`: the fields the
history synchronizer reads (`slice_id`, `url_params`), plus the rest of the
payload, opaque to it. -/
structure FormData where
  slice_id : Option Int
  url_params : List (String × String)
  rest : Val

/-- The argument tuple of one `updateHistory` call (index.jsx lines 163-172). -/
structure UpdateHistoryArgs where
  formData : FormData
  datasourceId : Int
  datasourceType : String
  isReplace : Bool
  standalone : Bool
  force : Bool
  title : Option String
  tabId : Option Int

/-- The debounce interval of `updateHistory` (index.jsx line 232). -/
def updateHistoryWait : Nat := 1000

/-- Modelled from the spec: lodash `debounce` (external library, not in the
provided sources) with a trailing-edge quiescence window — a pending call is
superseded by any call arriving strictly within `wait` ms of it; a call
executes iff it is the last call or the next call arrives `wait` ms or more
later. Calls are given as (arrival time, arguments), in arrival order. -/
def debounceExecuted (wait : Nat) : List (Nat × UpdateHistoryArgs) → List UpdateHistoryArgs
  | [] => []
  | [(_, args)] => [args]
  | (t1, args1) :: (t2, args2) :: rest =>
      (if t1 + wait ≤ t2 then [args1] else []) ++ debounceExecuted wait ((t2, args2) :: rest)

/-- Every call of the sequence arrives strictly less than `wait` ms after the
previous one. -/
def burstWithinWindow (wait : Nat) : List (Nat × UpdateHistoryArgs) → Bool
  | [] => true
  | [_] => true
  | (t1, _) :: (t2, args2) :: rest =>
      decide (t2 < t1 + wait) && burstWithinWindow wait ((t2, args2) :: rest)

/-- C3. Debounce coalescing: for a nonempty sequence of `updateHistory` calls
in which each call arrives strictly less than the 1000 ms quiescence window
after the previous one, exactly one persist executes, with the arguments of
the last call. -/
theorem updateHistory_debounce_coalesces (calls : List (Nat × UpdateHistoryArgs))
    (t : Nat) (args : UpdateHistoryArgs)
    (hlast : calls.getLast? = some (t, args))
    (hburst : burstWithinWindow updateHistoryWait calls = true) :
    debounceExecuted updateHistoryWait calls = [args] := by
  induction calls with
  | nil => simp at hlast
  | cons hd tl ih =>
    obtain ⟨t1, args1⟩ := hd
    cases tl with
    | nil =>
      simp [List.getLast?] at hlast
      simp [debounceExecuted, hlast.2]
    | cons hd2 tl2 =>
      obtain ⟨t2, args2⟩ := hd2
      simp only [burstWithinWindow, Bool.and_eq_true, decide_eq_true_eq] at hburst
      rw [List.getLast?_cons_cons] at hlast
      have hlt : ¬(t1 + updateHistoryWait ≤ t2) := by omega
      simp only [debounceExecuted, if_neg hlt, List.nil_append]
      exact ih hlast hburst.2

/-- A sample argument tuple, distinguished by the datasource type string. -/
def sampleArgs (tag : String) : UpdateHistoryArgs :=
  ⟨⟨some 42, [("foo", "bar")], .vNull⟩, 7, tag, false, false, false, none, some 3⟩

/-- Witness for C3: three calls, 200 ms apart, inside the 1000 ms window;
only the last one's arguments are persisted. -/
theorem updateHistory_debounce_coalesces_witness :
    debounceExecuted updateHistoryWait
        [(0, sampleArgs "day"), (200, sampleArgs "week"), (400, sampleArgs "month")]
      = [sampleArgs "month"] :=
  updateHistory_debounce_coalesces
    [(0, sampleArgs "day"), (200, sampleArgs "week"), (400, sampleArgs "month")]
    400 (sampleArgs "month") rfl (by decide)

/-- An attach or detach of a listener closure on the external event target;
handler closures are numbered by the render pass that created them. -/
inductive ListenerEvent where
  | addListener : Nat → ListenerEvent
  | removeListener : Nat → ListenerEvent

/-- `addEventListener` appends the handler; `removeEventListener` removes one
matching registration and is a no-op when the handler is not attached. -/
def applyListenerEvent (attached : List Nat) : ListenerEvent → List Nat
  | .addListener handler => attached ++ [handler]
  | .removeListener handler => attached.erase handler

/-- Modelled from the spec: the React effect lifecycle (the React runtime is
external to the provided sources) for the popstate/keydown listener effects
(index.jsx lines 386-395 and 397-406). On the first render the effect body
runs; on each later render where the handler changed, React first runs the
previous effect's cleanup (which removes the handler it registered), then the
new body, which removes the previous handler (a no-op, it is already removed)
and attaches the current one. -/
def listenerEffectRun : Nat → List ListenerEvent
  | 0 => [.addListener 0]
  | n + 1 => [.removeListener n, .removeListener n, .addListener (n + 1)]

/-- The full event trace after render passes `0..n`. -/
def listenerTrace : Nat → List ListenerEvent
  | 0 => listenerEffectRun 0
  | n + 1 => listenerTrace n ++ listenerEffectRun (n + 1)

/-- The listeners attached to the event target after a trace of events. -/
def attachedListeners (events : List ListenerEvent) : List Nat :=
  events.foldl applyListenerEvent []

lemma attachedListeners_append (l1 l2 : List ListenerEvent) :
    attachedListeners (l1 ++ l2) = l2.foldl applyListenerEvent (attachedListeners l1) := by
  simp [attachedListeners, List.foldl_append]

/-- C4. Event bridge listener invariant: after every render pass `n`, exactly
the latest handler closure `n` is attached (one listener, never zero after the
first attach), and at every intermediate point of the trace (every prefix,
cut at `k`) at most one listener is attached — the previous listener is
removed before the next is attached, so two are never attached at once. -/
theorem listener_exactly_one_latest (n k : Nat) :
    attachedListeners (listenerTrace n) = [n] ∧
    (attachedListeners ((listenerTrace n).take k)).length ≤ 1 := by
  induction n generalizing k with
  | zero =>
    constructor
    · rfl
    · cases k with
      | zero => simp [listenerTrace, listenerEffectRun, attachedListeners]
      | succ k => simp [listenerTrace, listenerEffectRun, attachedListeners,
          applyListenerEvent]
  | succ n ih =>
    have h1 : attachedListeners (listenerTrace n) = [n] := (ih 0).1
    have hfull : attachedListeners (listenerTrace (n + 1)) = [n + 1] := by
      show attachedListeners (listenerTrace n ++ listenerEffectRun (n + 1)) = [n + 1]
      rw [attachedListeners_append, h1]
      simp [listenerEffectRun, applyListenerEvent, List.erase]
    refine ⟨hfull, ?_⟩
    show (attachedListeners ((listenerTrace n ++ listenerEffectRun (n + 1)).take k)).length ≤ 1
    rw [List.take_append_eq_append_take, attachedListeners_append]
    rcases hm : k - (listenerTrace n).length with _ | m
    · simpa [listenerEffectRun, attachedListeners] using (ih k).2
    · have hk : (listenerTrace n).length ≤ k := by omega
      have htk : (listenerTrace n).take k = listenerTrace n := List.take_of_length_le hk
      rw [htk, h1]
      rcases m with _ | m
      · simp [listenerEffectRun, applyListenerEvent, List.erase]
      · rcases m with _ | m <;>
          simp [listenerEffectRun, applyListenerEvent, List.erase, List.take_succ_cons]

/-- One render pass of `ExploreViewContainer`, as far as the stale-telemetry
code path reads it: the last-queried snapshot and the current controls. -/
structure RenderPass where
  lastQueriedControls : Option Snapshot
  controls : Snapshot

/-- The telemetry event name logged when the chart is stale
(`LOG_ACTIONS_CHANGE_EXPLORE_CONTROLS` from `src/logger/LogUtils`, not in the
provided sources; the token value is opaque to this subsystem). -/
def LOG_ACTIONS_CHANGE_EXPLORE_CONTROLS : String := "CHANGE_EXPLORE_CONTROLS"

/-- The telemetry events emitted over a sequence of render passes by
index.jsx lines 522-524: the component body logs the event on every render
pass in which `chartIsStale` is true. -/
def staleRenderLog : List RenderPass → List String
  | [] => []
  | pass :: rest =>
      (if chartIsStale pass.lastQueriedControls pass.controls then
        [LOG_ACTIONS_CHANGE_EXPLORE_CONTROLS]
      else []) ++ staleRenderLog rest

/-- The number of transitions of the staleness value from false to true over a
sequence of render passes, starting from `wasStale` (false before the first
render); this is the emission count the claim asserts. -/
def staleTransitionCount : Bool → List RenderPass → Nat
  | _, [] => 0
  | wasStale, pass :: rest =>
      (if !wasStale && chartIsStale pass.lastQueriedControls pass.controls then 1 else 0)
        + staleTransitionCount (chartIsStale pass.lastQueriedControls pass.controls) rest

/-- A render pass whose chart is stale: granularity was `day` when last
queried and is now `week`, on a non-ignorable control. -/
def stalePassExample : RenderPass :=
  ⟨some [("granularity", ⟨.vStr "day", [], false, false⟩)],
   [("granularity", ⟨.vStr "week", [], false, false⟩)]⟩

/-- Counterexample to C5: across two render passes that both compute a stale
chart (a single transition into the stale state), the telemetry event is
emitted twice, not once — the code logs on every stale render pass. -/
theorem staleTelemetry_not_once_per_transition :
    (staleRenderLog [stalePassExample, stalePassExample]).length = 2 ∧
    staleTransitionCount false [stalePassExample, stalePassExample] = 1 := by
  decide

/-- C5 (amended). Stale-transition telemetry: the telemetry event is emitted
exactly once per render pass during which `chartIsStale` is true — it is
re-emitted on every subsequent render pass while the state remains stale, not
once per false-to-true transition. -/
theorem staleRenderLog_once_per_stale_pass (passes : List RenderPass) :
    (staleRenderLog passes).length
      = (passes.filter fun pass =>
          chartIsStale pass.lastQueriedControls pass.controls).length := by
  induction passes with
  | nil => rfl
  | cons pass rest ih =>
    by_cases h : chartIsStale pass.lastQueriedControls pass.controls <;>
      simp [staleRenderLog, List.filter, h, ih]

/-- Modelled from the spec: the reserved chart URL parameter names
(`URL_PARAMS` / `RESERVED_CHART_URL_PARAMS` from `src/constants`, not in the
provided sources) — chart id, datasource id, datasource type, form-data key,
standalone mode. -/
def URL_PARAMS_sliceId : String := "slice_id"

/-- The datasource-id reserved URL parameter name. -/
def URL_PARAMS_datasourceId : String := "datasource_id"

/-- The datasource-type reserved URL parameter name. -/
def URL_PARAMS_datasourceType : String := "datasource_type"

/-- The form-data-key reserved URL parameter name. -/
def URL_PARAMS_formDataKey : String := "form_data_key"

/-- The standalone-mode reserved URL parameter name. -/
def URL_PARAMS_standalone : String := "standalone"

/-- Modelled from the spec: `RESERVED_CHART_URL_PARAMS` from `src/constants`
(not in the provided sources): the reserved chart URL parameter names, which
`updateHistory` never copies out of `url_params`. -/
def RESERVED_CHART_URL_PARAMS : List String :=
  [URL_PARAMS_sliceId, URL_PARAMS_datasourceId, URL_PARAMS_datasourceType,
   URL_PARAMS_formDataKey, URL_PARAMS_standalone]

/-- A JavaScript object used as a string-keyed parameter set; only lookups are
observed, so it is modelled as a partial map. -/
abbrev ParamMap := String → Option String

/-- Property assignment `m[key] = value`. -/
def setParam (params : ParamMap) (key value : String) : ParamMap :=
  fun k => if k = key then some value else params k

/-- The empty parameter set. -/
def emptyParams : ParamMap := fun _ => none

/-- `Object.fromEntries` over address-bar search entries: assignments in entry
order, so a later duplicate key wins. -/
def paramsFromEntries (entries : List (String × String)) : ParamMap :=
  entries.foldl (fun m kv => setParam m kv.1 kv.2) emptyParams

/-- JavaScript truthiness of `formData.slice_id` (`0`, the unsaved-chart id,
and `undefined` are falsy). -/
def chartIdTruthy : Option Int → Bool
  | some n => n != 0
  | none => false

/-- The address-bar parameters merged with the identity parameters
(index.jsx lines 175-183): the chart id when truthy, otherwise the datasource
id and type. -/
def identityParams (search : List (String × String)) (chartId : Option Int)
    (datasourceId : Int) (datasourceType : String) : ParamMap :=
  let base := paramsFromEntries search
  if chartIdTruthy chartId then
    setParam base URL_PARAMS_sliceId (toString (chartId.getD 0))
  else
    setParam (setParam base URL_PARAMS_datasourceId (toString datasourceId))
      URL_PARAMS_datasourceType datasourceType

/-- One step of the `url_params` copy loop (index.jsx lines 186-190): a
non-reserved key is assigned over the accumulated parameters, a reserved key
is skipped. -/
def urlParamsStep (params : ParamMap) (kv : String × String) : ParamMap :=
  if RESERVED_CHART_URL_PARAMS.contains kv.1 then params else setParam params kv.1 kv.2

/-- `additionalParam` (index.jsx lines 175-190): address-bar parameters, then
identity parameters, then each non-reserved `url_params` entry written over
them. -/
def additionalParam (search : List (String × String)) (chartId : Option Int)
    (datasourceId : Int) (datasourceType : String)
    (url_params : List (String × String)) : ParamMap :=
  url_params.foldl urlParamsStep (identityParams search chartId datasourceId datasourceType)

lemma urlParamsFold_of_not_mem (l : List (String × String)) (m : ParamMap)
    (key : String) (h : key ∉ l.map Prod.fst) :
    (l.foldl urlParamsStep m) key = m key := by
  induction l generalizing m with
  | nil => rfl
  | cons kv rest ih =>
    simp only [List.map_cons, List.mem_cons] at h
    push_neg at h
    rw [List.foldl_cons, ih _ h.2]
    unfold urlParamsStep
    split
    · rfl
    · simp [setParam, h.1]

lemma urlParamsFold_of_reserved (l : List (String × String)) (m : ParamMap)
    (key : String) (h : RESERVED_CHART_URL_PARAMS.contains key = true) :
    (l.foldl urlParamsStep m) key = m key := by
  have hmemr : key ∈ RESERVED_CHART_URL_PARAMS := by simpa using h
  induction l generalizing m with
  | nil => rfl
  | cons kv rest ih =>
    rw [List.foldl_cons, ih]
    unfold urlParamsStep
    split
    · rfl
    · rename_i hr
      have hne : key ≠ kv.1 := by
        intro he
        exact hr (by simpa [he] using hmemr)
      simp [setParam, hne]

lemma urlParamsFold_written (l : List (String × String)) (m : ParamMap)
    (key value : String) (hmem : (key, value) ∈ l)
    (hnodup : (l.map Prod.fst).Nodup)
    (hres : RESERVED_CHART_URL_PARAMS.contains key = false) :
    (l.foldl urlParamsStep m) key = some value := by
  have hnotmemr : key ∉ RESERVED_CHART_URL_PARAMS := by simpa using hres
  induction l generalizing m with
  | nil => simp at hmem
  | cons kv rest ih =>
    simp only [List.map_cons, List.nodup_cons] at hnodup
    rcases List.mem_cons.mp hmem with heq | hrest
    · have hkv : kv = (key, value) := heq.symm
      subst hkv
      rw [List.foldl_cons, urlParamsFold_of_not_mem rest _ key hnodup.1]
      unfold urlParamsStep
      split
      · rename_i hr
        exact absurd (by simpa using hr) hnotmemr
      · simp [setParam]
    · rw [List.foldl_cons]
      exact ih _ hrest hnodup.2

/-- C10. URL-parameter collision precedence: in the `additionalParam` set, a
non-reserved `url_params` key always ends with its `url_params` value (it is
written after, and so overrides, the address-bar and identity parameters),
while a reserved key is never copied from `url_params` — its final value is
the one from the identity-patched address-bar parameters. -/
theorem additionalParam_url_params_precedence (search : List (String × String))
    (chartId : Option Int) (datasourceId : Int) (datasourceType : String)
    (url_params : List (String × String)) (key value : String)
    (hmem : (key, value) ∈ url_params)
    (hnodup : (url_params.map Prod.fst).Nodup) :
    (RESERVED_CHART_URL_PARAMS.contains key = false →
      additionalParam search chartId datasourceId datasourceType url_params key
        = some value)
    ∧ (RESERVED_CHART_URL_PARAMS.contains key = true →
      additionalParam search chartId datasourceId datasourceType url_params key
        = identityParams search chartId datasourceId datasourceType key) := by
  constructor
  · intro hres
    exact urlParamsFold_written url_params _ key value hmem hnodup hres
  · intro hres
    exact urlParamsFold_of_reserved url_params _ key hres

/-- Witness for C10: with `slice_id` (reserved) and `other` (non-reserved) both
in the address bar and in `url_params`, the final set takes `other` from
`url_params` and `slice_id` from the identity parameters. -/
theorem additionalParam_url_params_precedence_witness :
    (RESERVED_CHART_URL_PARAMS.contains "other" = false →
      additionalParam [("other", "fromAddressBar"), ("slice_id", "99")] (some 42) 7 "table"
        [("other", "fromUrlParams"), ("slice_id", "13")] "other" = some "fromUrlParams")
    ∧ (RESERVED_CHART_URL_PARAMS.contains "other" = true →
      additionalParam [("other", "fromAddressBar"), ("slice_id", "99")] (some 42) 7 "table"
        [("other", "fromUrlParams"), ("slice_id", "13")] "other"
        = identityParams [("other", "fromAddressBar"), ("slice_id", "99")] (some 42) 7 "table"
            "other") :=
  additionalParam_url_params_precedence
    [("other", "fromAddressBar"), ("slice_id", "99")] (some 42) 7 "table"
    [("other", "fromUrlParams"), ("slice_id", "13")] "other" "fromUrlParams"
    (by decide) (by decide)

/-- A remote-store persist call issued by `updateHistory`: `postFormData`
creates an entry under a freshly generated key (returned by the store);
`putFormData` updates the entry at the given key. Argument order follows
index.jsx lines 196-213. -/
inductive PersistCall where
  | postFormData : (datasourceId : Int) → (datasourceType : String) →
      (formData : FormData) → (chartId : Option Int) → (tabId : Option Int) → PersistCall
  | putFormData : (datasourceId : Int) → (datasourceType : String) →
      (key : Option String) → (formData : FormData) → (chartId : Option Int) →
      (tabId : Option Int) → PersistCall

/-- Which `window.history` mutator is used. -/
inductive StateModifier where
  | replaceState : StateModifier
  | pushState : StateModifier

/-- The arguments of the `mountExploreUrl` call (the function itself is
outside the excerpted subsystem): the standalone indicator, the URL parameter
set, and the force flag. -/
structure ExploreUrlCall where
  standaloneParam : Option String
  params : ParamMap
  force : Bool

/-- One browser-history mutation `window.history[stateModifier](payload,
title, url)` (index.jsx line 226). -/
structure HistoryMutation where
  stateModifier : StateModifier
  payload : FormData
  title : Option String
  url : ExploreUrlCall

/-- The environment one debounced `updateHistory` execution runs in: the
address-bar state when it starts, the form-data key currently in the URL, the
key the remote store generates for a `postFormData`, whether the remote
persist fails (the `catch` path), and the location path and application root
at the race guard (index.jsx line 217). -/
structure UpdateHistoryEnv where
  locationSearch : List (String × String)
  urlFormDataKey : Option String
  generatedKey : String
  persistFails : Bool
  locationPathname : String
  appRoot : String

/-- Modelled from the spec: `ensureAppRoot` from `src/utils/pathUtils` (not in
the provided sources) joins the application root onto a path. -/
def ensureAppRootPath (appRoot path : String) : String :=
  appRoot ++ path

/-- `String.startsWith`, computed on the underlying character lists. -/
def startsWithPath (s p : String) : Bool :=
  List.isPrefixOf p.data s.data

/-- The observable effects of one debounced `updateHistory` execution: the
remote persist call it issued (if it got that far) and the browser-history
mutation it performed (if any). -/
structure UpdateHistoryRun where
  persistIssued : Option PersistCall
  historyMutation : Option HistoryMutation

/-- One debounced execution of `updateHistory` (index.jsx lines 162-233):
build `additionalParam`, issue `postFormData` (replace) or `putFormData`
(push); on persist failure the exception is caught and no history mutation
happens; on success the history mutation happens only if the location path
still starts with the exploration route, using `replaceState` and the fresh
key for a replace, `pushState` and the URL's existing form-data key
otherwise. -/
def runUpdateHistory (args : UpdateHistoryArgs) (env : UpdateHistoryEnv) : UpdateHistoryRun :=
  let chartId := args.formData.slice_id
  let addl := additionalParam env.locationSearch chartId args.datasourceId
    args.datasourceType args.formData.url_params
  let persist : PersistCall :=
    if args.isReplace then
      .postFormData args.datasourceId args.datasourceType args.formData chartId args.tabId
    else
      .putFormData args.datasourceId args.datasourceType env.urlFormDataKey args.formData
        chartId args.tabId
  if env.persistFails then
    { persistIssued := some persist, historyMutation := none }
  else
    let key : Option String :=
      if args.isReplace then some env.generatedKey else env.urlFormDataKey
    let stateModifier : StateModifier :=
      if args.isReplace then .replaceState else .pushState
    if startsWithPath env.locationPathname (ensureAppRootPath env.appRoot "/explore") then
      { persistIssued := some persist,
        historyMutation := some
          { stateModifier := stateModifier,
            payload := args.formData,
            title := args.title,
            url :=
              { standaloneParam :=
                  if args.standalone then some URL_PARAMS_standalone else none,
                params := fun k =>
                  match addl k with
                  | some v => some v
                  | none => if k = URL_PARAMS_formDataKey then key else none,
                force := args.force } } }
    else
      { persistIssued := some persist, historyMutation := none }

/-- C6. Navigation-race guard: whenever the remote persist succeeds, the
persist call has been issued, and the browser-history mutation happens iff the
location path, re-checked after the persist, still starts with the exploration
route; when the user has navigated away the mutation is skipped while the
persist was still issued. -/
theorem updateHistory_navigation_race_guard (args : UpdateHistoryArgs)
    (env : UpdateHistoryEnv) (hok : env.persistFails = false) :
    ((runUpdateHistory args env).persistIssued).isSome = true ∧
    (((runUpdateHistory args env).historyMutation).isSome = true ↔
      startsWithPath env.locationPathname (ensureAppRootPath env.appRoot "/explore") = true) := by
  unfold runUpdateHistory
  by_cases hp : startsWithPath env.locationPathname (ensureAppRootPath env.appRoot "/explore")
    = true <;> simp [hok, hp]

/-- An environment in which the user has navigated away from the exploration
route while the persist was in flight. -/
def envNavigatedAway : UpdateHistoryEnv :=
  ⟨[("foo", "1")], some "oldkey", "freshkey", false, "/app/dashboard/list/", "/app"⟩

/-- Witness for C6: with the location path on a dashboard route, the history
mutation is skipped but the persist call was issued. -/
theorem updateHistory_navigation_race_guard_witness :
    ((runUpdateHistory (sampleArgs "day") envNavigatedAway).persistIssued).isSome = true ∧
    (((runUpdateHistory (sampleArgs "day") envNavigatedAway).historyMutation).isSome = true ↔
      startsWithPath envNavigatedAway.locationPathname
        (ensureAppRootPath envNavigatedAway.appRoot "/explore") = true) :=
  updateHistory_navigation_race_guard (sampleArgs "day") envNavigatedAway rfl

/-- C7. Replace/push branching: in an executed persist that reaches the
history mutation, `isReplace = true` issues `postFormData` (the store
generates a fresh key) and mutates history via `replaceState`, while
`isReplace = false` issues `putFormData` at the form-data key read from the
URL and mutates history via `pushState`. -/
theorem updateHistory_replace_push_branching (args : UpdateHistoryArgs)
    (env : UpdateHistoryEnv) (hok : env.persistFails = false)
    (hpath : startsWithPath env.locationPathname (ensureAppRootPath env.appRoot "/explore")
      = true) :
    (args.isReplace = true →
      (runUpdateHistory args env).persistIssued
          = some (.postFormData args.datasourceId args.datasourceType args.formData
              args.formData.slice_id args.tabId) ∧
      ∃ mutation, (runUpdateHistory args env).historyMutation = some mutation ∧
        mutation.stateModifier = StateModifier.replaceState)
    ∧ (args.isReplace = false →
      (runUpdateHistory args env).persistIssued
          = some (.putFormData args.datasourceId args.datasourceType env.urlFormDataKey
              args.formData args.formData.slice_id args.tabId) ∧
      ∃ mutation, (runUpdateHistory args env).historyMutation = some mutation ∧
        mutation.stateModifier = StateModifier.pushState) := by
  constructor <;> intro hrep <;> unfold runUpdateHistory <;> simp [hok, hpath, hrep]

/-- A replace-mode argument tuple. -/
def replaceArgs : UpdateHistoryArgs :=
  ⟨⟨some 42, [("p", "q")], .vNull⟩, 7, "table", true, false, false, some "my chart", some 3⟩

/-- An environment in which the location path is still on the exploration
route. -/
def envOnExplore : UpdateHistoryEnv :=
  ⟨[("vizType", "table")], some "oldkey", "freshkey", false, "/app/explore/", "/app"⟩

/-- Witness for C7: a replace-mode execution on the exploration route issues
`postFormData` and mutates history via `replaceState`. -/
theorem updateHistory_replace_push_branching_witness :
    (runUpdateHistory replaceArgs envOnExplore).persistIssued
        = some (.postFormData 7 "table" replaceArgs.formData (some 42) (some 3)) ∧
    ∃ mutation, (runUpdateHistory replaceArgs envOnExplore).historyMutation = some mutation ∧
      mutation.stateModifier = StateModifier.replaceState :=
  (updateHistory_replace_push_branching replaceArgs envOnExplore rfl (by decide)).1 rfl

/-- The plugin registry record for the selected visualization type; the
coordinator only reads `mounting`. -/
structure PluginState where
  mounting : Bool

/-- `isDynamicPluginLoading` (index.jsx line 252):
`dynamicPlugin && dynamicPlugin.mounting` — `undefined` (modelled `none`) when
no plugin record exists, otherwise the `mounting` flag. -/
def isDynamicPluginLoading (dynamicPlugin : Option PluginState) : Option Bool :=
  dynamicPlugin.map PluginState.mounting

/-- JavaScript truthiness of the loading value: `undefined` is falsy. -/
def jsTruthy : Option Bool → Bool
  | none => false
  | some b => b

/-- Modelled from the spec: the React effect lifecycle (the React runtime is
external to the provided sources) — the effect with dependency
`[isDynamicPluginLoading]` runs on the first render and on every render where
that value changed (`Object.is`: `undefined` and `false` are different
dependency values). Body from index.jsx lines 408-413: invoke
`dynamicPluginControlsReady` iff the previous pass's value was truthy and the
current one is not. One Bool per render pass: whether the reconciliation
callback was invoked on that pass. -/
def pluginLoadInvocations (wasLoading : Option Bool) (isFirstRender : Bool) :
    List (Option PluginState) → List Bool
  | [] => []
  | plugin :: rest =>
      let isLoading := isDynamicPluginLoading plugin
      let effectRuns := isFirstRender || decide (isLoading ≠ wasLoading)
      (effectRuns && (jsTruthy wasLoading && !(jsTruthy isLoading)))
        :: pluginLoadInvocations isLoading false rest

/-- The invocation pattern the claim asserts: invoke exactly on the edge
where `mounting` was truthy on the previous pass and is false or absent on
the current pass. -/
def pluginLoadEdge (wasLoading : Option Bool) : List (Option PluginState) → List Bool
  | [] => []
  | plugin :: rest =>
      (jsTruthy wasLoading && !(jsTruthy (isDynamicPluginLoading plugin)))
        :: pluginLoadEdge (isDynamicPluginLoading plugin) rest

lemma pluginLoadInvocations_eq_edge (passes : List (Option PluginState))
    (wasLoading : Option Bool) (isFirstRender : Bool) :
    pluginLoadInvocations wasLoading isFirstRender passes = pluginLoadEdge wasLoading passes := by
  induction passes generalizing wasLoading isFirstRender with
  | nil => rfl
  | cons plugin rest ih =>
    have hhead : ∀ (was cur : Option Bool) (first : Bool),
        ((first || decide (cur ≠ was)) && (jsTruthy was && !(jsTruthy cur)))
          = (jsTruthy was && !(jsTruthy cur)) := by decide
    simp only [pluginLoadInvocations, pluginLoadEdge, hhead, ih]

/-- C8. Plugin load edge detection: over any sequence of render passes
starting at mount (no previous pass), `dynamicPluginControlsReady` is invoked
on a pass iff the observed loading value was truthy on the previous pass and
is false or absent on the current one; no other transition (including
false-to-true load start, or the first pass) invokes it. -/
theorem pluginLoad_invoked_iff_finished_edge (passes : List (Option PluginState)) :
    pluginLoadInvocations none true passes = pluginLoadEdge none passes :=
  pluginLoadInvocations_eq_edge passes none true

/-- `hasError` from the mount-time query effect (index.jsx lines 416-419):
some control has a non-empty `validationErrors` list. -/
def someControlHasValidationError (controls : Snapshot) : Bool :=
  controls.any fun entry => !entry.2.validationErrors.isEmpty

/-- The observable outcome of the mount-time query effect: whether
`triggerQuery` was dispatched, and the displayed result afterwards. -/
structure InitialQueryEffect where
  triggerQueryIssued : Bool
  displayedResult : Option Val

/-- The mount-time automatic-query effect (index.jsx lines 415-423): dispatch
`triggerQuery` iff no control has validation errors; the displayed result is
not touched in either case. -/
def runInitialQueryEffect (controls : Snapshot) (displayedResult : Option Val) :
    InitialQueryEffect :=
  { triggerQueryIssued := !(someControlHasValidationError controls),
    displayedResult := displayedResult }

/-- The suppression condition the claim asserts: some query-affecting control
(neither `renderTrigger` nor `dontRefreshOnChange`) has a non-empty
`validationErrors` list. -/
def someQueryAffectingControlHasError (controls : Snapshot) : Bool :=
  controls.any fun entry =>
    (!entry.2.renderTrigger && !entry.2.dontRefreshOnChange)
      && !entry.2.validationErrors.isEmpty

/-- A snapshot whose only control is visual-only (`renderTrigger = true`) and
carries a validation error. -/
def visualOnlyErrorControls : Snapshot :=
  [("color_scheme", ⟨.vStr "set1", ["invalid color"], true, false⟩)]

/-- Counterexample to C9: no query-affecting control has validation errors,
yet the automatic query is not issued — the code gates on the validation
errors of all controls, not only the query-affecting ones. -/
theorem validationGating_not_query_affecting_only :
    someQueryAffectingControlHasError visualOnlyErrorControls = false ∧
    (runInitialQueryEffect visualOnlyErrorControls
      (some (.vStr "staleResult"))).triggerQueryIssued = false := by
  decide

/-- C9 (amended). Validation-error gating: the automatic query is suppressed
iff some control — of any kind, not only query-affecting ones — has a
non-empty `validationErrors` list, and the suppression leaves the currently
displayed (possibly stale) result unchanged; with no validation errors the
query is issued. -/
theorem validationGating_any_control (controls : Snapshot) (displayedResult : Option Val) :
    ((runInitialQueryEffect controls displayedResult).triggerQueryIssued = false ↔
      ∃ entry, entry ∈ controls ∧ entry.2.validationErrors.isEmpty = false) ∧
    (runInitialQueryEffect controls displayedResult).displayedResult = displayedResult := by
  constructor
  · simp [runInitialQueryEffect, someControlHasValidationError, List.any_eq_true]
  · rfl
